import Mathlib

/-!
Verification of the exposure / temperature control loop of the FishCamp
(`indi-fishcamp/indi_fishcamp.cpp`) and Kepler (`indi-fli/kepler.cpp`) camera
drivers.  Each definition is a shallow embedding of one function (or one
clearly delimited block) of the C++ source; hardware calls are modelled by
passing their integer result codes / read values as explicit arguments,
`double` arithmetic is modelled over the rationals, and INDI property state
(`IPState`) is an explicit four-valued type.
-/

/-- INDI property state values (`IPS_IDLE`, `IPS_OK`, `IPS_BUSY`, `IPS_ALERT`). -/
inductive IPState
  | idle
  | ok
  | busy
  | alert
deriving DecidableEq, Repr

/-- Signal emitted upstream by a download step: `ExposureComplete` on the
primary chip, `setExposureFailed`, or nothing at all. -/
inductive DownloadSignal
  | silent
  | complete
  | failed
deriving DecidableEq, Repr

namespace FishCamp

/-- Outcome of the exposure branch of `FishCampCCD::TimerHit` for one tick:
either no tighter timer is requested (remaining time is merely reported and the
base cadence `SetTimer(getCurrentPollingPeriod())` re-arms at the end of the
function), or `SetTimer(250)` / `SetTimer(50)` is called, or the terminal
spin-wait runs with `usleep` interval `slv = fabs(100000 * timeleft)`
(truncated to `int`) between hardware ready-state queries, followed directly
by the download. -/
inductive TimerAction
  | baseCadence
  | timer250
  | timer50
  | spin (sleepUs : ℤ)
deriving DecidableEq, Repr

/-- Poll-interval policy of `FishCampCCD::TimerHit` (indi_fishcamp.cpp
lines 430-470) as a function of the remaining exposure time in seconds:
`if (timeleft < 1.0) { if (timeleft > 0.25) SetTimer(250); else
if (timeleft > 0.07) SetTimer(50); else spin with slv = fabs(100000*timeleft); }
else report remaining time (base cadence)`. -/
def timerAction (timeleft : ℚ) : TimerAction :=
  if timeleft < 1 then
    if 1/4 < timeleft then
      .timer250
    else if 7/100 < timeleft then
      .timer50
    else
      .spin ⌊|100000 * timeleft|⌋
  else
    .baseCadence

/-- The interval, in milliseconds, until the controller next queries the
hardware, as requested by one tick of the exposure branch: the base cadence
for the plain-report branch, the explicit `SetTimer` argument for the two
tighter branches, and the `usleep` interval (converted from microseconds) for
the spin-wait. -/
def requestedMs (base timeleft : ℚ) : ℚ :=
  match timerAction timeleft with
  | .baseCadence => base
  | .timer250 => 250
  | .timer50 => 50
  | .spin s => (s : ℚ) / 1000

/-- `FishCampCCD::grabImage` (indi_fishcamp.cpp lines 395-415): the raw-frame
grab returns `numBytes`; when it is non-zero the function logs success, calls
`ExposureComplete` and returns 0; when it is zero it logs an error but still
calls `ExposureComplete` and returns −1.  First component: the signal emitted;
second: the value returned to the caller. -/
def grabImage (numBytes : ℤ) : DownloadSignal × ℤ :=
  if numBytes ≠ 0 then (.complete, 0) else (.complete, -1)

/-- `FishCampCCD::StartExposure` (lines 275-300): issues the integration-time
and start commands once each (no retry), sets `InExposure = true`
unconditionally, and returns `rc == 0` where `bool rc` holds the result of
`fcUsb_cmd_startExposure` (so the returned bool is true iff the hardware start
command returned 0).  First component: `InExposure` after the call; second:
the returned bool. -/
def StartExposure (startRc : ℤ) : Bool × Bool :=
  (true, decide (startRc = 0))

/-- `FishCampCCD::AbortExposure` (lines 302-312): issues the hardware abort,
sets `InExposure = false` regardless of the hardware result, and returns
`true` unconditionally.  First component: `InExposure` after the call;
second: the return value. -/
def AbortExposure : Bool × Bool :=
  (false, true)

/-- The exposure branch of `FishCampCCD::TimerHit` as a whole: a no-op when
`InExposure` is false, otherwise the tier policy `timerAction` on the
remaining time. -/
def exposureTick (inExposure : Bool) (timeleft : ℚ) : Option TimerAction :=
  if inExposure then some (timerAction timeleft) else none

/-- Whether one timer tick reaches the download (`grabImage`, hence an
`ExposureComplete` emission): only the spin branch of an active exposure
does. -/
def tickCompletes (inExposure : Bool) (timeleft : ℚ) : Bool :=
  match exposureTick inExposure timeleft with
  | some (.spin _) => true
  | _ => false

/-- `FishCampCCD::SetTemperature` (lines 209-228): stores the request, issues
`fcUsb_cmd_setTemperature` unconditionally (no range validation), sets
`CoolerNP` state from `fcUsb_cmd_getTECInPowerOK`, sets `TemperatureNP` state
to BUSY and returns 0.  Result: (stored TemperatureRequest, CoolerNP state,
TemperatureNP state, return code). -/
def SetTemperature (temperature : ℚ) (tecPowerOk : Bool) :
    ℚ × IPState × IPState × ℤ :=
  (temperature, if tecPowerOk then IPState.ok else IPState.idle, IPState.busy, 0)

/-- The temperature branch of `FishCampCCD::TimerHit` (lines 478-521), a
switch on the `TemperatureNP` state.  IDLE/OK: read the temperature in
centidegrees, publish it only when `fabs(last - read/100) >= 0.25`.  BUSY:
store the read value (or the request when simulating) and publish it
unconditionally; the BUSY → OK convergence transition is commented out in the
source, so the state never changes here.  ALERT: do nothing.  Result:
(new state, new `TemperatureNP[0]` value, whether an update was emitted). -/
def temperaturePoll (st : IPState) (lastValue tempRequest : ℚ) (sim : Bool)
    (readCenti : ℤ) : IPState × ℚ × Bool :=
  match st with
  | .idle | .ok =>
      let ccdTemp : ℚ := (readCenti : ℚ) / 100
      if 1/4 ≤ |lastValue - ccdTemp| then (st, ccdTemp, true)
      else (st, lastValue, false)
  | .busy =>
      (.busy, if sim then tempRequest else (readCenti : ℚ) / 100, true)
  | .alert => (.alert, lastValue, false)

/-- The cooler branch of `FishCampCCD::TimerHit` (lines 523-533): while
`CoolerNP.s == IPS_OK` the TEC power level is read and published on every
tick, with no change threshold; otherwise nothing happens.  Result:
(new `CoolerN[0]` value, whether an update was emitted). -/
def coolerPoll (coolerState : IPState) (lastPower powerRead : ℚ) : ℚ × Bool :=
  match coolerState with
  | .ok => (powerRead, true)
  | _ => (lastPower, false)

/-- Steady-state (`IPS_OK`) temperature polling iterated over a list of
hardware readings in centidegrees, starting from a last-reported value;
returns the per-reading emission flags. -/
def steadyEmissions (lastValue : ℚ) : List ℤ → List Bool
  | [] => []
  | c :: cs =>
      let r := temperaturePoll .ok lastValue 0 false c
      r.2.2 :: steadyEmissions r.2.1 cs

end FishCamp

namespace Kepler

/-- How the countdown loop of `Kepler::workerExposure` terminates: the
per-iteration `isAboutToQuit` check fired, or the rounded remaining time
reached zero (the loop falls through to the frame download), or the supplied
list of observation instants was too short to decide (model artifact). -/
inductive CountdownResult
  | aborted
  | finished
  | starved
deriving DecidableEq, Repr

/-- Whether the worker's atomic `isAboutToQuit` flag reads true at time `now`
(milliseconds since the exposure timer started), given the instant at which
`AbortExposure` ran `m_Worker.quit()` (`none` when no abort is ever issued). -/
def abortObserved : Option ℚ → ℚ → Bool
  | none, _ => false
  | some a, now => decide (a ≤ now)

/-- The countdown do-while loop of `Kepler::workerExposure` (kepler.cpp lines
351-362).  Each iteration observes the elapsed timer at some instant `t` (ms),
computes `timeLeft = max(duration - t/1000, 0)`, returns if `isAboutToQuit`
reads true, rounds `timeLeft` to whole seconds, sleeps, and loops while the
rounded value is positive.  The list supplies the observation instants of the
successive iterations. -/
def countdown (duration : ℚ) (abortAtMs : Option ℚ) : List ℚ → CountdownResult
  | [] => .starved
  | t :: rest =>
      let timeLeft := max (duration - t / 1000) 0
      if abortObserved abortAtMs t then .aborted
      else if 0 < round timeLeft then countdown duration abortAtMs rest
      else .finished

/-- The `FPROFrame_CaptureStart` retry loop of `Kepler::workerExposure`
(lines 326-335): up to 3 attempts, breaking on the first result 0, with a
100 ms `usleep` after each failure; `res i` is the hardware result of attempt
`i`.  Returns the value `result` holds after the loop. -/
def captureStartResult (res : Fin 3 → ℤ) : ℤ :=
  if res 0 = 0 then res 0 else if res 1 = 0 then res 1 else res 2

/-- Number of `FPROFrame_CaptureStart` attempts the retry loop performs. -/
def captureAttempts (res : Fin 3 → ℤ) : ℕ :=
  if res 0 = 0 then 1 else if res 1 = 0 then 2 else 3

/-- The fixed delay slept between `FPROFrame_CaptureStart` attempts, in
milliseconds (`usleep(100 * 1000)`). -/
def captureRetryDelayMs : ℕ := 100

/-- The download tail of `Kepler::workerExposure` (lines 369-407): when
`FPROFrame_GetVideoFrameUnpacked` returns a non-negative result the image is
forwarded and `ExposureComplete` is emitted; on a negative result
`PrimaryCCD.setExposureFailed()` is signalled instead.  No path is silent. -/
def downloadStep (grabResult : ℤ) : DownloadSignal :=
  if 0 ≤ grabResult then .complete else .failed

/-- Observable outcome of one `Kepler::workerExposure` run. -/
inductive WorkerOutcome
  | noSignal
  | abortedEarly
  | starved
  | completeEmitted
  | failedSignal
deriving DecidableEq, Repr

/-- `Kepler::workerExposure` (lines 309-408) end to end: if
`FPROCtrl_SetExposure` fails the worker logs and returns (no signal); if all
`FPROFrame_CaptureStart` attempts fail it likewise logs and returns (no
signal, no state reset); otherwise it runs the countdown loop and, when that
falls through, the download step. -/
def workerExposure (setExpResult : ℤ) (captureResults : Fin 3 → ℤ)
    (duration : ℚ) (abortAtMs : Option ℚ) (checkTimesMs : List ℚ)
    (grabResult : ℤ) : WorkerOutcome :=
  if setExpResult ≠ 0 then .noSignal
  else if captureStartResult captureResults ≠ 0 then .noSignal
  else
    match countdown duration abortAtMs checkTimesMs with
    | .aborted => .abortedEarly
    | .starved => .starved
    | .finished =>
        match downloadStep grabResult with
        | .complete => .completeEmitted
        | .failed => .failedSignal
        | .silent => .noSignal

/-- The thermal state `Kepler::SetTemperature` touches: the last reported
`TemperatureN[0].value`, `m_TargetTemperature`, and the temperature timer
interval in milliseconds. -/
structure ThermalState where
  currentTemp : ℚ
  targetTemp : ℚ
  intervalMs : ℚ
deriving DecidableEq, Repr

/-- `Kepler::SetTemperature` (kepler.cpp lines 1198-1218): when the request
is within `TEMPERATURE_THRESHOLD = 0.1` of the current reported value it
returns 1 immediately; otherwise it issues
`FPROCtrl_SetTemperatureSetPoint` — with no range validation of any kind —
and on a non-negative hardware result stores the target, restarts the
temperature timer at `TEMPERATURE_FREQUENCY_BUSY = 1000` ms and returns 0,
else returns −1.  Result: (return code, new thermal state, whether the
hardware setpoint command was issued). -/
def SetTemperature (s : ThermalState) (hwResult : ℤ) (temperature : ℚ) :
    ℤ × ThermalState × Bool :=
  if |temperature - s.currentTemp| < 1/10 then (1, s, false)
  else if 0 ≤ hwResult then
    (0, { s with targetTemp := temperature, intervalMs := 1000 }, true)
  else (-1, s, true)

/-- The temperature half of `Kepler::readTemperature` (lines 1306-1359):
a failed `FPROCtrl_GetTemperatures` first forces the state to ALERT, then the
switch runs on the resulting state.  IDLE/OK: publish the cooler temperature
only when it differs from the last value by strictly more than
`TEMPERATURE_THRESHOLD = 0.1`.  BUSY: if within 0.1 of `m_TargetTemperature`,
become OK and reset the timer interval to `TEMPERATURE_FREQUENCY_IDLE =
5000` ms; publish unconditionally.  ALERT: do nothing (the branch is empty,
so ALERT is never left here).  Result: (new state, new value, new timer
interval, whether a value update was published). -/
def temperaturePoll (st : IPState) (lastValue targetTemp intervalMs : ℚ)
    (readResult : ℤ) (cooler : ℚ) : IPState × ℚ × ℚ × Bool :=
  let st1 := if readResult < 0 then IPState.alert else st
  match st1 with
  | .idle | .ok =>
      if 1/10 < |cooler - lastValue| then (st1, cooler, intervalMs, true)
      else (st1, lastValue, intervalMs, false)
  | .busy =>
      if |cooler - targetTemp| ≤ 1/10 then (.ok, cooler, 5000, true)
      else (.busy, cooler, intervalMs, true)
  | .alert => (.alert, lastValue, intervalMs, false)

/-- The duty-cycle half of `Kepler::readTemperature` (lines 1361-1385),
independent of the temperature switch: a failed duty read puts `CoolerDutyNP`
in ALERT (publishing that change) unless it is already there; otherwise the
duty value is published only when `std::abs(dutycycle - last) >= 1`, setting
the state to BUSY while the duty is positive and IDLE at zero.  Result:
(new state, new value, whether an update was published). -/
def dutyCyclePoll (dutyState : IPState) (lastDuty : ℚ) (readResult : ℤ)
    (duty : ℚ) : IPState × ℚ × Bool :=
  if readResult < 0 ∧ dutyState ≠ IPState.alert then (.alert, lastDuty, true)
  else if 1 ≤ |duty - lastDuty| then
    (if 0 < duty then IPState.busy else IPState.idle, duty, true)
  else (dutyState, lastDuty, false)

/-- Steady-state (`IPS_OK`) temperature polling iterated over a list of
successful cooler-temperature readings; returns the per-reading emission
flags. -/
def steadyEmissions (lastValue : ℚ) : List ℚ → List Bool
  | [] => []
  | c :: cs =>
      let r := temperaturePoll .ok lastValue 0 5000 0 c
      r.2.2.2 :: steadyEmissions r.2.1 cs

/-- Duty-cycle polling iterated over a list of successful duty readings;
returns the per-reading emission flags. -/
def dutyEmissions (lastDuty : ℚ) : List ℚ → List Bool
  | [] => []
  | d :: ds =>
      let r := dutyCyclePoll .idle lastDuty 0 d
      r.2.2 :: dutyEmissions r.2.1 ds

end Kepler

/-- C1: the claim as stated puts `T = 0.25 s` in the 250 ms tier
(`0.25 ≤ T < 1.0`), but `FishCampCCD::TimerHit` uses the strict comparison
`timeleft > 0.25`, so at exactly `T = 0.25` it requests a 50 ms timer. -/
theorem c1_tier_boundary_counterexample :
    (1/4 : ℚ) < 1 ∧ (1/4 : ℚ) ≤ 1/4 ∧
      FishCamp.timerAction (1/4) = .timer50 := by
  refine ⟨by norm_num, le_refl _, ?_⟩
  unfold FishCamp.timerAction
  rw [if_pos (by norm_num), if_neg (by norm_num), if_pos (by norm_num)]

/-- C1 (amended): the tier table of `FishCampCCD::TimerHit` with the
boundaries the code actually uses — `T ≥ 1 s`: report only (base cadence);
`0.25 < T < 1`: 250 ms timer; `0.07 < T ≤ 0.25`: 50 ms timer; `T ≤ 0.07`:
bounded spin-wait sleeping `⌊|100000·T|⌋` microseconds between hardware
ready-state queries — and, provided the base cadence is at least 250 ms, the
requested inter-query interval is monotonically non-increasing as the
remaining time decreases (over non-negative remaining times). -/
theorem c1_tier_table_and_monotone (base T T1 T2 : ℚ)
    (hbase : 250 ≤ base) (h2 : 0 ≤ T2) (h21 : T2 ≤ T1) :
    (1 ≤ T → FishCamp.timerAction T = .baseCadence) ∧
    (1/4 < T → T < 1 → FishCamp.timerAction T = .timer250) ∧
    (7/100 < T → T ≤ 1/4 → FishCamp.timerAction T = .timer50) ∧
    (T ≤ 7/100 → FishCamp.timerAction T = .spin ⌊|100000 * T|⌋) ∧
    FishCamp.requestedMs base T2 ≤ FishCamp.requestedMs base T1 := by
  refine ⟨?_, ?_, ?_, ?_, ?_⟩
  · intro h
    unfold FishCamp.timerAction
    rw [if_neg (by linarith)]
  · intro h1 h2'
    unfold FishCamp.timerAction
    rw [if_pos h2', if_pos h1]
  · intro h1 h2'
    unfold FishCamp.timerAction
    rw [if_pos (by linarith), if_neg (by linarith), if_pos h1]
  · intro h
    unfold FishCamp.timerAction
    rw [if_pos (by linarith), if_neg (by linarith), if_neg (by linarith)]
  · -- Monotonicity of the requested interval.
    have spinBound : ∀ t : ℚ, 0 ≤ t → t ≤ 7/100 →
        (0 : ℚ) ≤ (⌊|100000 * t|⌋ : ℚ) / 1000 ∧ (⌊|100000 * t|⌋ : ℚ) / 1000 ≤ 7 := by
      intro t ht0 ht7
      have habs : |100000 * t| = 100000 * t := abs_of_nonneg (by linarith)
      constructor
      · have h0 : (0 : ℤ) ≤ ⌊|100000 * t|⌋ := by
          apply Int.floor_nonneg.mpr
          rw [habs]; linarith
        have : (0 : ℚ) ≤ (⌊|100000 * t|⌋ : ℚ) := by exact_mod_cast h0
        linarith
      · have hle : (⌊|100000 * t|⌋ : ℚ) ≤ 100000 * t := by
          calc (⌊|100000 * t|⌋ : ℚ) ≤ |100000 * t| := Int.floor_le _
            _ = 100000 * t := habs
        have : (⌊|100000 * t|⌋ : ℚ) ≤ 7000 := by linarith
        linarith
    have spinMono : ∀ s t : ℚ, 0 ≤ s → s ≤ t →
        (⌊|100000 * s|⌋ : ℚ) / 1000 ≤ (⌊|100000 * t|⌋ : ℚ) / 1000 := by
      intro s t hs hst
      have h1 : |100000 * s| = 100000 * s := abs_of_nonneg (by linarith)
      have h2' : |100000 * t| = 100000 * t := abs_of_nonneg (by linarith)
      have : (⌊|100000 * s|⌋ : ℤ) ≤ ⌊|100000 * t|⌋ := by
        apply Int.floor_le_floor
        rw [h1, h2']; linarith
      have : ((⌊|100000 * s|⌋ : ℤ) : ℚ) ≤ ((⌊|100000 * t|⌋ : ℤ) : ℚ) := by
        exact_mod_cast this
      linarith
    have h1 : 0 ≤ T1 := le_trans h2 h21
    unfold FishCamp.requestedMs FishCamp.timerAction
    split_ifs with ha hb hc hd he hf hg hh hi <;> simp only
    -- Discharge the impossible combinations and compare concrete values.
    all_goals first
      | linarith
      | (exact (spinBound T2 h2 (by linarith)).2.trans (by linarith))
      | (exact spinMono T2 T1 h2 h21)

/-- Witness for the amended C1 theorem: base cadence 1000 ms, tier check at
T = 0.5 s, monotonicity between T2 = 0.1 s and T1 = 0.3 s. -/
theorem c1_tier_table_and_monotone_witness :
    FishCamp.requestedMs 1000 (1/10) ≤ FishCamp.requestedMs 1000 (3/10) ∧
    FishCamp.timerAction (1/2) = .timer250 := by
  have h := c1_tier_table_and_monotone 1000 (1/2) (3/10) (1/10)
    (by norm_num) (by norm_num) (by norm_num)
  exact ⟨h.2.2.2.2, h.2.1 (by norm_num) (by norm_num)⟩

/-- C2: the claim as stated fails on `Kepler::workerExposure`.  For a 0.4 s
exposure the countdown loop's only flag check happens at t = 0 ms; it then
sleeps out the whole exposure and exits (round(0.4) = 0), so an abort issued
at t = 200 ms — while the exposure is running, during the blocking wait — is
never observed and `ExposureComplete` is still emitted for that attempt. -/
theorem c2_abort_window_counterexample :
    (0 : ℚ) ≤ 200 ∧ (200 : ℚ) / 1000 < 2/5 ∧
      Kepler.workerExposure 0 (fun _ => 0) (2/5) (some 200) [0] 0 =
        .completeEmitted := by
  refine ⟨by norm_num, by norm_num, ?_⟩
  have hobs : Kepler.abortObserved (some 200) 0 = false := by
    simp only [Kepler.abortObserved, decide_eq_false_iff_not]
    norm_num
  have hround : round (max ((2 : ℚ)/5 - 0 / 1000) 0) = 0 := by
    rw [show max ((2 : ℚ)/5 - 0 / 1000) 0 = 2/5 by
      rw [max_eq_left (by norm_num)]; norm_num]
    rw [round_eq]; norm_num
  have hcd : Kepler.countdown (2/5) (some 200) [0] = .finished := by
    unfold Kepler.countdown
    rw [hobs]
    simp only [Bool.false_eq_true, if_false, hround]
    norm_num
  unfold Kepler.workerExposure
  rw [if_neg (by norm_num), if_neg (by simp [Kepler.captureStartResult]), hcd]
  simp [Kepler.downloadStep]

/-- C2 (amended): the Kepler worker's wait loop polls the cancellation flag
at every iteration, so an abort that precedes the current iteration's check
makes the loop return immediately and the worker emit no `Complete`; and in
FishCamp, `AbortExposure` forces `InExposure = false` at once (returning
true), after which a timer tick performs no download.  An abort issued after
the loop's final per-iteration flag check, however, does not prevent the
completion (`c2_abort_window_counterexample`). -/
theorem c2_abort_observed_aborts (duration abortAt t : ℚ) (rest checks : List ℚ)
    (setExp grab : ℤ) (caps : Fin 3 → ℤ) (hobs : abortAt ≤ t) :
    Kepler.countdown duration (some abortAt) (t :: rest) = .aborted ∧
    (Kepler.countdown duration (some abortAt) checks = .aborted →
      Kepler.workerExposure setExp caps duration (some abortAt) checks grab ≠
        .completeEmitted) ∧
    FishCamp.AbortExposure = (false, true) ∧
    (∀ tl : ℚ, FishCamp.tickCompletes false tl = false) := by
  refine ⟨?_, ?_, rfl, ?_⟩
  · unfold Kepler.countdown
    rw [show Kepler.abortObserved (some abortAt) t = true by
      simp [Kepler.abortObserved, hobs]]
    simp
  · intro h
    unfold Kepler.workerExposure
    split_ifs <;> simp [h]
  · intro tl
    simp [FishCamp.tickCompletes, FishCamp.exposureTick]

/-- Witness for the amended C2 theorem: an abort issued at t = 0 is observed
by the check at t = 0 of a 1 s exposure and no completion is emitted. -/
theorem c2_abort_observed_aborts_witness :
    Kepler.countdown 1 (some 0) [0] = .aborted ∧
    Kepler.workerExposure 0 (fun _ => 0) 1 (some 0) [0] 0 ≠
      .completeEmitted := by
  have h := c2_abort_observed_aborts 1 0 0 [] [0] 0 0 (fun _ => 0) le_rfl
  exact ⟨h.1, h.2.1 h.1⟩

/-- C3: confirmed.  In `FishCampCCD::grabImage` every grab result — positive,
zero or negative byte count — leads to an `ExposureComplete` emission; the
zero-byte case is the only one reported as a failure to the caller (return
−1), while a negative count follows the success path (return 0) but still
emits.  In `Kepler::workerExposure` the download tail emits
`ExposureComplete` on a non-negative grab result and `setExposureFailed`
on a negative one; no path drops the completion signal silently. -/
theorem c3_completion_never_dropped :
    (∀ n : ℤ, (FishCamp.grabImage n).1 = .complete) ∧
    FishCamp.grabImage 0 = (.complete, -1) ∧
    FishCamp.grabImage (-3) = (.complete, 0) ∧
    (∀ g : ℤ, Kepler.downloadStep g ≠ .silent) := by
  refine ⟨?_, ?_, ?_, ?_⟩
  · intro n
    unfold FishCamp.grabImage
    split_ifs <;> rfl
  · rfl
  · rfl
  · intro g
    unfold Kepler.downloadStep
    split_ifs <;> simp

/-- C4: the claim as stated fails on `Kepler::workerExposure`.  When all
three `FPROFrame_CaptureStart` attempts fail, the worker merely logs and
returns: no error is surfaced to the caller (no failure signal is emitted)
and nothing reverts the exposure state. -/
theorem c4_no_surfacing_counterexample :
    Kepler.captureStartResult (fun _ => -1) = -1 ∧
    Kepler.workerExposure 0 (fun _ => -1) 1 none [] 5 = .noSignal ∧
    Kepler.WorkerOutcome.noSignal ≠ .failedSignal := by
  have hcap : Kepler.captureStartResult (fun _ => -1) = -1 := by
    unfold Kepler.captureStartResult
    norm_num
  refine ⟨hcap, ?_, by simp⟩
  unfold Kepler.workerExposure
  rw [if_neg (by norm_num), hcap, if_pos (by norm_num)]

/-- C4 (amended): `Kepler::workerExposure` attempts the start-exposure
command up to 3 times (never more), breaking at the first success, with a
fixed 100 ms delay after each failure; when every attempt fails the worker
logs the error and returns, emitting no completion or failure signal and
leaving the exposure state untouched.  `FishCampCCD::StartExposure` performs
a single attempt with no retry, marks the exposure in progress regardless of
the hardware result, and returns true iff the start command returned 0. -/
theorem c4_retry_without_surfacing (caps : Fin 3 → ℤ) (grab : ℤ)
    (duration : ℚ) (abortAt : Option ℚ) (checks : List ℚ)
    (hfail : ∀ i, caps i ≠ 0) :
    Kepler.captureStartResult caps = caps 2 ∧
    Kepler.captureAttempts caps = 3 ∧
    Kepler.captureRetryDelayMs = 100 ∧
    Kepler.workerExposure 0 caps duration abortAt checks grab = .noSignal ∧
    (∀ ds : Fin 3 → ℤ, Kepler.captureAttempts ds ≤ 3) ∧
    (∀ rc : ℤ, (FishCamp.StartExposure rc).1 = true ∧
      ((FishCamp.StartExposure rc).2 = true ↔ rc = 0)) := by
  have hres : Kepler.captureStartResult caps = caps 2 := by
    unfold Kepler.captureStartResult
    rw [if_neg (hfail 0), if_neg (hfail 1)]
  refine ⟨hres, ?_, rfl, ?_, ?_, ?_⟩
  · unfold Kepler.captureAttempts
    rw [if_neg (hfail 0), if_neg (hfail 1)]
  · unfold Kepler.workerExposure
    rw [if_neg (by norm_num), hres, if_pos (hfail 2)]
  · intro ds
    unfold Kepler.captureAttempts
    split_ifs <;> norm_num
  · intro rc
    exact ⟨rfl, by simp [FishCamp.StartExposure]⟩

/-- Witness for the amended C4 theorem: every attempt returning −1. -/
theorem c4_retry_without_surfacing_witness :
    Kepler.captureAttempts (fun _ => -1) = 3 ∧
    Kepler.workerExposure 0 (fun _ => -1) 2 none [0] 3 = .noSignal := by
  have h := c4_retry_without_surfacing (fun _ => -1) 3 2 none [0]
    (fun i => by norm_num)
  exact ⟨h.2.1, h.2.2.2.1⟩

/-- C5: the claim as stated fails on both drivers: neither
`Kepler::SetTemperature` nor `FishCampCCD::SetTemperature` contains any
range check.  A request of +100 °C — far outside the claimed −55…+45 °C
hardware range — is forwarded to the hardware; Kepler (current temperature
20 °C, hardware accepting) returns success 0, stores the target and switches
to the fast poll interval, and FishCamp returns 0 and sets the thermal state
BUSY. -/
theorem c5_no_range_check_counterexample :
    (45 : ℚ) < 100 ∧
    Kepler.SetTemperature ⟨20, 0, 5000⟩ 0 100 = (0, ⟨20, 100, 1000⟩, true) ∧
    FishCamp.SetTemperature 100 true = (100, .ok, .busy, 0) := by
  refine ⟨by norm_num, ?_, rfl⟩
  unfold Kepler.SetTemperature
  rw [if_neg (not_lt.mpr (le_abs.mpr (Or.inl (by norm_num)))),
    if_pos (by norm_num)]

/-- C5 (amended): `SetTemperature` performs no range validation in either
driver.  For any target at least 0.1 °C away from the current reported value,
Kepler forwards it to the hardware: on a non-negative hardware result it
returns 0, stores the target and restarts the fast (1000 ms) poll timer; on a
negative result it returns −1 with the thermal state unchanged.  FishCamp
accepts any target unconditionally, returning 0 and setting the temperature
state BUSY. -/
theorem c5_no_range_validation (s : Kepler.ThermalState) (hw : ℤ) (t : ℚ)
    (hfar : 1/10 ≤ |t - s.currentTemp|) :
    (0 ≤ hw → Kepler.SetTemperature s hw t =
      (0, { s with targetTemp := t, intervalMs := 1000 }, true)) ∧
    (hw < 0 → Kepler.SetTemperature s hw t = (-1, s, true)) ∧
    (∀ (u : ℚ) (p : Bool), (FishCamp.SetTemperature u p).1 = u ∧
      (FishCamp.SetTemperature u p).2.2 = (.busy, 0)) := by
  refine ⟨?_, ?_, ?_⟩
  · intro h
    unfold Kepler.SetTemperature
    rw [if_neg (not_lt.mpr hfar), if_pos h]
  · intro h
    unfold Kepler.SetTemperature
    rw [if_neg (not_lt.mpr hfar), if_neg (not_le.mpr h)]
  · intro u p
    exact ⟨rfl, rfl⟩

/-- Witness for the amended C5 theorem: target +100 °C against a current
reading of 20 °C with the hardware rejecting (result −3). -/
theorem c5_no_range_validation_witness :
    Kepler.SetTemperature ⟨20, 0, 5000⟩ (-3) 100 = (-1, ⟨20, 0, 5000⟩, true) := by
  have h := c5_no_range_validation ⟨20, 0, 5000⟩ (-3) 100
    (le_abs.mpr (Or.inl (by norm_num)))
  exact h.2.1 (by norm_num)

/-- C6: the claim as stated fails on `Kepler::readTemperature`: with the
temperature property in ALERT, a successful read (result 0) whose value
differs from the last reported one by 30 °C changes nothing — the ALERT case
of the switch is empty, so the alert is not cleared by any successful read. -/
theorem c6_alert_never_cleared_counterexample :
    (0 : ℤ) ≥ 0 ∧ (1/4 : ℚ) ≤ |(-10 : ℚ) - 20| ∧
    Kepler.temperaturePoll .alert 20 (-10) 5000 0 (-10) =
      (.alert, 20, 5000, false) := by
  refine ⟨le_refl _, le_abs.mpr (Or.inr (by norm_num)), ?_⟩
  unfold Kepler.temperaturePoll
  rw [if_neg (by norm_num)]

/-- C6 (amended): in `Kepler::readTemperature` a failed hardware temperature
read forces the state to ALERT, and ALERT is sticky: while in ALERT the poll
performs no further classification, publishes nothing and never leaves ALERT
— not even on a subsequent successful read with a value change (the claim's
clearing clause is refuted by `c6_alert_never_cleared_counterexample`).
FishCamp's ALERT branch is likewise empty. -/
theorem c6_alert_sticky (st : IPState) (last target interval cooler : ℚ)
    (res : ℤ) :
    (res < 0 → (Kepler.temperaturePoll st last target interval res cooler).1 =
      .alert) ∧
    Kepler.temperaturePoll .alert last target interval res cooler =
      (.alert, last, interval, false) ∧
    (∀ (tr : ℚ) (b : Bool) (rc : ℤ),
      FishCamp.temperaturePoll .alert last tr b rc = (.alert, last, false)) := by
  refine ⟨?_, ?_, ?_⟩
  · intro h
    unfold Kepler.temperaturePoll
    rw [if_pos h]
  · unfold Kepler.temperaturePoll
    rw [ite_self]
  · intro tr b rc
    rfl

/-- Witness for the amended C6 theorem: a failed read (−5) from BUSY lands in
ALERT, and a later successful poll leaves ALERT untouched. -/
theorem c6_alert_sticky_witness :
    (Kepler.temperaturePoll .busy 20 (-10) 1000 (-5) 15).1 = .alert ∧
    Kepler.temperaturePoll .alert 20 (-10) 1000 3 20 =
      (.alert, 20, 1000, false) := by
  exact ⟨(c6_alert_sticky .busy 20 (-10) 1000 15 (-5)).1 (by norm_num),
    (c6_alert_sticky .alert 20 (-10) 1000 20 3).2.1⟩

/-- C7: the claim as stated fails on `FishCampCCD::TimerHit`: with the
temperature state BUSY (regulating) and a reading exactly at the 20 °C
target, the state remains BUSY — the BUSY → OK convergence transition is
commented out in the source — and no poll interval changes. -/
theorem c7_no_convergence_counterexample :
    |((2000 : ℤ) : ℚ) / 100 - 20| ≤ 1/4 ∧
    FishCamp.temperaturePoll .busy 20 20 false 2000 = (.busy, 20, true) := by
  constructor
  · rw [show ((2000 : ℤ) : ℚ) / 100 - 20 = 0 by norm_num, abs_zero]
    norm_num
  · unfold FishCamp.temperaturePoll
    norm_num

/-- C7 (amended): in `Kepler::readTemperature` a poll taken while Regulating
(BUSY) with the reading within 0.1 °C of the target transitions the state to
OK (converged) and reverts the temperature timer to the slow 5000 ms
interval, publishing the reading; in FishCamp the convergence transition is
disabled, so a Regulating poll always leaves the state BUSY. -/
theorem c7_convergence_reverts_interval (last target interval cooler : ℚ)
    (res : ℤ) (hres : 0 ≤ res) (hconv : |cooler - target| ≤ 1/10) :
    Kepler.temperaturePoll .busy last target interval res cooler =
      (.ok, cooler, 5000, true) ∧
    (∀ (lv tr : ℚ) (b : Bool) (rc : ℤ),
      (FishCamp.temperaturePoll .busy lv tr b rc).1 = .busy) := by
  constructor
  · unfold Kepler.temperaturePoll
    rw [if_neg (not_lt.mpr hres), if_pos hconv]
  · intro lv tr b rc
    rfl

/-- Witness for the amended C7 theorem: reading −10 °C against target −10 °C
while BUSY converges to OK at the slow interval. -/
theorem c7_convergence_reverts_interval_witness :
    Kepler.temperaturePoll .busy 15 (-10) 1000 0 (-10) =
      (.ok, -10, 5000, true) :=
  (c7_convergence_reverts_interval 15 (-10) 1000 (-10) 0 le_rfl
    (by rw [sub_self, abs_zero]; norm_num)).1

/-- C8: the claim as stated (emission iff the change is at least 0.25 °C)
fails on `Kepler::readTemperature`: in steady state with last reported value
20 °C, a successful reading of 20.2 °C — a 0.2 °C change, below the
claimed threshold — is nevertheless published, because Kepler's threshold is
`TEMPERATURE_THRESHOLD = 0.1` with a strict comparison. -/
theorem c8_threshold_counterexample :
    |(101/5 : ℚ) - 20| < 1/4 ∧
    Kepler.temperaturePoll .ok 20 0 5000 0 (101/5) =
      (.ok, 101/5, 5000, true) := by
  constructor
  · rw [show (101/5 : ℚ) - 20 = 1/5 by norm_num,
      abs_of_nonneg (by norm_num : (0:ℚ) ≤ 1/5)]
    norm_num
  · unfold Kepler.temperaturePoll
    rw [if_neg (by norm_num : ¬((0:ℤ) < 0))]
    simp only
    rw [if_pos (lt_abs.mpr (Or.inl (by norm_num)))]

/-- C8 (amended): while in steady state, FishCamp publishes a temperature
update iff the new reading differs from the last reported value by at least
0.25 °C, whereas Kepler publishes iff it differs by strictly more than
0.1 °C; in both drivers, the suppressed reading does not update the stored
last-reported value, so for the reading sequence 20.0, 20.1, 20.4 both
drivers emit only at 20.4. -/
theorem c8_emission_thresholds :
    (∀ (last : ℚ) (rc : ℤ),
      (FishCamp.temperaturePoll .ok last 0 false rc).2.2 = true ↔
        1/4 ≤ |last - (rc : ℚ)/100|) ∧
    (∀ last cooler : ℚ,
      (Kepler.temperaturePoll .ok last 0 5000 0 cooler).2.2.2 = true ↔
        1/10 < |cooler - last|) ∧
    FishCamp.steadyEmissions 20 [2010, 2040] = [false, true] ∧
    Kepler.steadyEmissions 20 [201/10, 204/10] = [false, true] := by
  refine ⟨?_, ?_, ?_, ?_⟩
  · intro last rc
    unfold FishCamp.temperaturePoll
    simp only
    split_ifs with h
    · simpa using h
    · simpa using h
  · intro last cooler
    unfold Kepler.temperaturePoll
    rw [if_neg (by norm_num : ¬((0:ℤ) < 0))]
    simp only
    split_ifs with h
    · simpa using h
    · simpa using h
  · norm_num [FishCamp.steadyEmissions, FishCamp.temperaturePoll, le_abs]
  · norm_num [Kepler.steadyEmissions, Kepler.temperaturePoll, lt_abs]

/-- C9: the claim as stated fails on `FishCampCCD::TimerHit`: while the
cooler is reported OK, the TEC power level is published on every tick with no
change threshold; a reading identical to the last reported 40 % (a 0 %
change) still emits. -/
theorem c9_cooler_always_emits_counterexample :
    |(40 : ℚ) - 40| < 1 ∧
    FishCamp.coolerPoll .ok 40 40 = (40, true) := by
  constructor
  · rw [sub_self, abs_zero]
    norm_num
  · rfl

/-- C9 (amended): in `Kepler::readTemperature` the duty-cycle update is
published iff the duty changed by at least 1 % from the last reported value
(on a successful read; the decision depends only on the duty values, never on
the temperature state, and a suppressed reading leaves the last-reported
value in place, so the 40 %, 40.5 %, 41 % sequence emits only at 41 %);
in FishCamp the power level is published on every poll while the cooler is
OK, with no threshold. -/
theorem c9_duty_threshold :
    (∀ (dst : IPState) (last duty : ℚ),
      (Kepler.dutyCyclePoll dst last 0 duty).2.2 = true ↔ 1 ≤ |duty - last|) ∧
    Kepler.dutyEmissions 40 [81/2, 41] = [false, true] ∧
    (∀ last p : ℚ, FishCamp.coolerPoll .ok last p = (p, true)) := by
  refine ⟨?_, ?_, ?_⟩
  · intro dst last duty
    unfold Kepler.dutyCyclePoll
    rw [if_neg (by simp : ¬((0:ℤ) < 0 ∧ dst ≠ IPState.alert))]
    split_ifs with h <;> simp [h]
  · norm_num [Kepler.dutyEmissions, Kepler.dutyCyclePoll, le_abs]
  · intro last p
    rfl

/-- C10: confirmed.  For any requested target within 0.1 °C
(`TEMPERATURE_THRESHOLD`) of the current reported temperature,
`Kepler::SetTemperature` returns 1 immediately without issuing the hardware
setpoint command, leaving the stored target and the temperature poll
interval unchanged. -/
theorem c10_nearby_target_short_circuits (s : Kepler.ThermalState)
    (hw : ℤ) (t : ℚ) (hnear : |t - s.currentTemp| < 1/10) :
    Kepler.SetTemperature s hw t = (1, s, false) := by
  unfold Kepler.SetTemperature
  rw [if_pos hnear]

/-- Witness for C10: requesting 20.05 °C with 20 °C currently reported
(and an arbitrary would-be hardware result 7). -/
theorem c10_nearby_target_short_circuits_witness :
    Kepler.SetTemperature ⟨20, -5, 5000⟩ 7 (401/20) =
      (1, ⟨20, -5, 5000⟩, false) := by
  apply c10_nearby_target_short_circuits
  rw [show (401/20 : ℚ) - 20 = 1/20 by norm_num,
    abs_of_nonneg (by norm_num : (0:ℚ) ≤ 1/20)]
  norm_num
